import Mathlib

/-!
Shallow embedding of the metasql statement builder (src/lib/query.js,
src/lib/database.js) and verification of its specification claims.

JS objects used as records (conditions, deltas, insert records) are
modelled as ordered association lists `List (String × Value)`, since JS
object key iteration order is insertion order and the source iterates
`Object.keys`.  JS strings are modelled through their character lists
where the source uses `includes` / `startsWith` / `substring` /
`replace`, which keeps every operation kernel-reducible.
-/

namespace MetaSQL

/-- JS values appearing in records and conditions. -/
inductive Value where
  | str (s : String)
  | num (n : Int)
  | bool (b : Bool)
deriving DecidableEq, Repr

/-- JS `value.toString()` for the values we model (used by `updates`,
which stringifies every delta value). -/
def Value.jsToString : Value → String
  | .str s => s
  | .num n => toString n
  | .bool b => if b then "true" else "false"

/-- JS `s.includes(c)` for a one-character needle. -/
def jsIncludesChar (s : String) (c : Char) : Bool :=
  s.data.contains c

/-- JS `s.startsWith(p)`. -/
def jsStartsWith (s p : String) : Bool :=
  p.data.isPrefixOf s.data

/-- JS `s.substring(n)`: drop the first `n` characters. -/
def jsDrop (s : String) (n : Nat) : String :=
  String.mk (s.data.drop n)

/-- JS `s.replace(re, c)` with a global one-character pattern, as in
`value.replace(/\*/g, '%')`: replace every occurrence of `a` by `b`. -/
def replaceChar (s : String) (a b : Char) : String :=
  String.mk (s.data.map (fun c => if c = a then b else c))

/-- The operator tokens checked, in order, by `whereValue`
(src/lib/query.js line 3). -/
def OPERATORS : List String := [">=", "<=", "<>", ">", "<"]

/-- Operator inference (src/lib/query.js lines 5-19): for a string value,
the first operator token of `OPERATORS` that prefixes it wins and the
remainder is the literal; otherwise a string holding `*` or `?` becomes a
`LIKE` mask (`*` ↦ `%`, `?` ↦ `_`); any other value is compared with `=`
unchanged. -/
def whereValue (value : Value) : String × Value :=
  match value with
  | .str s =>
    match OPERATORS.find? (fun op => jsStartsWith s op) with
    | some op => (op, .str (jsDrop s op.length))
    | none =>
      if jsIncludesChar s '*' || jsIncludesChar s '?' then
        ("LIKE", .str (replaceChar (replaceChar s '*' '%') '?' '_'))
      else
        ("=", value)
  | v => ("=", v)

/-- A Condition: one JS object mapping field names to condition values,
in key order. -/
abbrev Cond := List (String × Value)

/-- One predicate emitted by `buildWhere`'s inner loop:
`` `${columnName} ${operator} $${i}` ``. -/
def predicate (key operator : String) (i : Nat) (withQuotes : Bool) : String :=
  let columnName := if withQuotes then "\"" ++ key ++ "\"" else key
  columnName ++ " " ++ operator ++ " $" ++ toString i

/-- Inner loop of `buildWhere` (src/lib/query.js lines 26-33): for one
condition, the list of predicate strings (the `conjunction` array) and the
literals pushed to `args`, starting at placeholder index `i`. -/
def buildConjunction : Cond → Nat → Bool → List String × List Value
  | [], _, _ => ([], [])
  | (key, v) :: rest, i, q =>
    let p := whereValue v
    let tail := buildConjunction rest (i + 1) q
    (predicate key p.1 i q :: tail.1, p.2 :: tail.2)

/-- Outer loop of `buildWhere` (src/lib/query.js lines 25-35): the
`disjunction` array (each entry one condition's predicates joined with
`" AND "`) and the concatenated argument list.  The placeholder counter
advances by one per key, hence by `cond.length` per condition. -/
def buildDisjunction : List Cond → Nat → Bool → List String × List Value
  | [], _, _ => ([], [])
  | cond :: rest, i, q =>
    let c := buildConjunction cond i q
    let tail := buildDisjunction rest (i + cond.length) q
    (String.intercalate " AND " c.1 :: tail.1, c.2 ++ tail.2)

/-- Result of `buildWhere` / `updates`: `{ clause, args }`. -/
structure WhereResult where
  clause : String
  args : List Value
deriving DecidableEq, Repr

/-- `buildWhere(conditions, firstArgIndex, withQuotes)`
(src/lib/query.js lines 21-37). -/
def buildWhere (conditions : List Cond) (firstArgIndex : Nat) (withQuotes : Bool) : WhereResult :=
  let d := buildDisjunction conditions firstArgIndex withQuotes
  { clause := String.intercalate " OR " d.1, args := d.2 }

/-- Loop of `updates` (src/lib/query.js lines 43-48): assignment fragments
`` `"${key}" = $${i}` `` and the stringified values pushed to `args`. -/
def updatesClauses : List (String × Value) → Nat → List String × List Value
  | [], _ => ([], [])
  | (key, v) :: rest, i =>
    let value := v.jsToString
    let tail := updatesClauses rest (i + 1)
    (("\"" ++ key ++ "\" = $" ++ toString i) :: tail.1, Value.str value :: tail.2)

/-- `updates(delta, firstArgIndex)` (src/lib/query.js lines 39-50). -/
def updates (delta : List (String × Value)) (firstArgIndex : Nat) : WhereResult :=
  let c := updatesClauses delta firstArgIndex
  { clause := String.intercalate ", " c.1, args := c.2 }

/-- Action chosen for an INSERT's ON CONFLICT clause
(`doNothing` / `doUpdate`); `none` models an `onConflict(...)` call on
which neither configurator method was invoked, so `options.onConflict.action`
stays `undefined`. -/
inductive ConflictAction where
  | nothing
  | update
deriving DecidableEq, Repr

/-- `options.onConflict` as built by `InsertQuery.onConflict`
(src/lib/query.js lines 144-172). -/
structure ConflictSpec where
  fields : List String
  action : Option ConflictAction
  excludeFields : List String
deriving DecidableEq, Repr

/-- The `options` object of a query.  Absent JS keys are `none`.
`limit` and `offset` are numbers, tested for truthiness (a JS number is
truthy iff nonzero) by the SELECT compiler; the list-valued options are
arrays, which are truthy even when empty. -/
structure Options where
  order : Option (List String) := none
  descending : Option (List String) := none
  limit : Option Int := none
  offset : Option Int := none
  returning : Option (List String) := none
  onConflict : Option ConflictSpec := none
deriving DecidableEq, Repr

/-- Outcome of resolving a query's `then`: either exactly one request
`db.query(sql, args)` is dispatched, or a synchronous JS exception is
thrown before any request is made.  Every `then` in src/lib/query.js ends
in exactly one of these. -/
inductive Resolution where
  | dispatched (sql : String) (args : List Value)
  | threw (msg : String)
deriving DecidableEq, Repr

/-- The argument list of a dispatched request (empty when the resolution
threw before dispatch). -/
def Resolution.args : Resolution → List Value
  | .dispatched _ a => a
  | .threw _ => []

/-- `SelectQuery` (src/lib/query.js lines 60-125): table, selected
fields, the rest-parameter `where` conditions, and the options object. -/
structure SelectQuery where
  table : String
  fields : List String
  whereConds : List Cond
  options : Options
deriving DecidableEq, Repr

/-- `SelectQuery.prototype.limit` (line 79-82): `this.options.limit = count`. -/
def SelectQuery.limitSet (q : SelectQuery) (count : Int) : SelectQuery :=
  { q with options := { q.options with limit := some count } }

/-- `SelectQuery.prototype.offset` (line 84-87): `this.options.offset = count`. -/
def SelectQuery.offsetSet (q : SelectQuery) (count : Int) : SelectQuery :=
  { q with options := { q.options with offset := some count } }

/-- `SelectQuery.prototype.order` (lines 67-71): deletes `options.desc`
and sets `options.order` (a single string is wrapped into a list). -/
def SelectQuery.orderSet (q : SelectQuery) (field : List String) : SelectQuery :=
  { q with options := { q.options with descending := none, order := some field } }

/-- `SelectQuery.prototype.desc` (lines 73-77): deletes `options.order`
and sets `options.desc`. -/
def SelectQuery.descSet (q : SelectQuery) (field : List String) : SelectQuery :=
  { q with options := { q.options with order := none, descending := some field } }

/-- The field-name part of a SELECT: `'*'` when the first field is `'*'`,
otherwise the quoted, comma-joined field list (lines 92). -/
def selectNames (fields : List String) : String :=
  if fields.head? = some "*" then "*"
  else "\"" ++ String.intercalate "\", \"" fields ++ "\""

/-- The `sql` parts array and `args` built by `SelectQuery.prototype.then`
(src/lib/query.js lines 89-107), up to the `db.query` call.  Each branch
mirrors one conditional `sql.push`; `if (limit)` / `if (offset)` test a
JS number for truthiness, i.e. for being nonzero. -/
def selectParts (q : SelectQuery) : List String × List Value :=
  let sql0 := ["SELECT " ++ selectNames q.fields ++ " FROM \"" ++ q.table ++ "\""]
  let withWhere :=
    if q.whereConds.length ≠ 0 then
      let cond := buildWhere q.whereConds 1 true
      (sql0 ++ ["WHERE " ++ cond.clause], cond.args)
    else (sql0, [])
  let sql1 := withWhere.1 ++
    (match q.options.order with
     | some o => ["ORDER BY \"" ++ String.intercalate "\", \"" o ++ "\""]
     | none => []) ++
    (match q.options.descending with
     | some d => ["ORDER BY \"" ++ String.intercalate "\", \"" d ++ "\" DESC"]
     | none => []) ++
    (match q.options.limit with
     | some n => if n ≠ 0 then ["LIMIT " ++ toString n] else []
     | none => []) ++
    (match q.options.offset with
     | some n => if n ≠ 0 then ["OFFSET " ++ toString n] else []
     | none => [])
  (sql1, withWhere.2)

/-- The single request `db.query(sql.join(' '), args)` dispatched by
`SelectQuery.prototype.then` (line 104). -/
def SelectQuery.request (q : SelectQuery) : String × List Value :=
  let p := selectParts q
  (String.intercalate " " p.1, p.2)

/-- The transportable descriptor built by `SelectQuery.prototype.toObject`
(lines 109-116), as a value: `fields` and each condition object are
copied, `options` is passed along.  (Reference sharing of `options` is
modelled separately by the heap embedding below.) -/
structure QueryObject where
  table : String
  fields : List String
  whereConds : List Cond
  options : Options
deriving DecidableEq, Repr

/-- `SelectQuery.prototype.toObject` (lines 109-116). -/
def SelectQuery.toObject (q : SelectQuery) : QueryObject :=
  { table := q.table
    fields := q.fields
    whereConds := q.whereConds
    options := q.options }

/-- `SelectQuery.from(db, metadata)` (lines 118-124): copies the
conditions, constructs a fresh query (fresh `options = {}`), then
`Object.assign`s the metadata options onto it — key for key, so the
resulting options equal the metadata's. -/
def SelectQuery.fromObject (metadata : QueryObject) : SelectQuery :=
  { table := metadata.table
    fields := metadata.fields
    whereConds := metadata.whereConds
    options := metadata.options }

/-- `InsertQuery` (src/lib/query.js lines 138-225). -/
structure InsertQuery where
  table : String
  record : List (String × Value)
  options : Options
deriving DecidableEq, Repr

/-- `UpsertQuery.prototype.returning` (lines 132-135):
`this.options.returning = Array.isArray(fields) ? fields : [fields]`,
replacing any previous value; we model the field-list form. -/
def InsertQuery.returningSet (q : InsertQuery) (fields : List String) : InsertQuery :=
  { q with options := { q.options with returning := some fields } }

/-- The exclusion-list normalisation in `doUpdate` (lines 160-166): wrap
a single name into a list and strip a leading `!` from each entry. -/
def doUpdateExcludeFields (exclude : List String) : List String :=
  exclude.map (fun field => if jsStartsWith field "!" then jsDrop field 1 else field)

/-- `onConflict(fields)` followed by `.doUpdate(exclude)`
(lines 144-171): records the conflict fields, `action = 'update'` and the
normalised exclusion list.  `onConflict` throws if a conflict clause is
already specified. -/
def InsertQuery.onConflictDoUpdate (q : InsertQuery) (fields : List String)
    (exclude : List String) : Resolution ⊕ InsertQuery :=
  if q.options.onConflict.isSome then
    .inl (.threw "On conflict clause is already specified")
  else
    let spec : ConflictSpec :=
      { fields := fields, action := some .update,
        excludeFields := doUpdateExcludeFields exclude }
    .inr { q with options := { q.options with onConflict := some spec } }

/-- The reduce computing the conflict-update delta
(src/lib/query.js lines 201-208).  Mirrors the source exactly: the
callback returns the extended accumulator for a non-excluded key and
returns `undefined` (here `none`) for an excluded key; spreading
`undefined` on the next step yields an empty object, so everything
accumulated before an excluded key is lost.  A final `none` means the
delta itself is `undefined`. -/
def conflictDeltaOpt (record : List (String × Value)) (excludeFields : List String) :
    Option (List (String × Value)) :=
  if excludeFields.length ≠ 0 then
    record.foldl
      (fun acc kv =>
        if excludeFields.contains kv.1 = false then
          some (acc.getD [] ++ [kv])
        else none)
      (some [])
  else some record

/-- The `RETURNING` part pushed by `InsertQuery.prototype.then` and
`UpdateQuery.prototype.then` (lines 215-221 and 242-248):
`if (this.options.returning)` — a present array is truthy even when
empty, so `some []` still emits a bare `RETURNING `. -/
def returningParts (returning : Option (List String)) : List String :=
  match returning with
  | some r => ["RETURNING " ++ String.intercalate ", " (r.map (fun field => "\"" ++ field ++ "\""))]
  | none => []

/-- `InsertQuery.prototype.then` (src/lib/query.js lines 174-224) up to
the `db.query` call.  The `nums` loop yields placeholders `$1..$k` for
the `k` record keys; an `action === 'update'` conflict recomputes the
delta via the reduce and compiles it with `updates(delta, args.length+1)`;
`updates(undefined)` would call `Object.keys(undefined)` and throw. -/
def InsertQuery.resolve (q : InsertQuery) : Resolution :=
  let keys := q.record.map (fun kv => kv.1)
  let data := q.record.map (fun kv => kv.2)
  let fields := "\"" ++ String.intercalate "\", \"" keys ++ "\""
  let params := String.intercalate ", "
    ((List.range' 1 keys.length).map (fun n => "$" ++ toString n))
  let sql0 := ["INSERT INTO \"" ++ q.table ++ "\" (" ++ fields ++ ") VALUES (" ++ params ++ ")"]
  match q.options.onConflict with
  | none =>
    .dispatched (String.intercalate " " (sql0 ++ returningParts q.options.returning)) data
  | some spec =>
    let sql1 := sql0 ++
      ["ON CONFLICT (" ++
        String.intercalate ", " (spec.fields.map (fun field => "\"" ++ field ++ "\"")) ++ ")"]
    match spec.action with
    | some .nothing =>
      .dispatched
        (String.intercalate " " (sql1 ++ ["DO NOTHING"] ++ returningParts q.options.returning))
        data
    | some .update =>
      match conflictDeltaOpt q.record spec.excludeFields with
      | none => .threw "TypeError: Cannot convert undefined or null to object"
      | some delta =>
        let upd := updates delta (data.length + 1)
        .dispatched
          (String.intercalate " "
            (sql1 ++ ["DO UPDATE", "SET " ++ upd.clause] ++ returningParts q.options.returning))
          (data ++ upd.args)
    | none =>
      .dispatched (String.intercalate " " (sql1 ++ returningParts q.options.returning)) data

/-- `UpdateQuery` (src/lib/query.js lines 227-252). -/
structure UpdateQuery where
  table : String
  delta : List (String × Value)
  conditions : List Cond
  options : Options
deriving DecidableEq, Repr

/-- `UpsertQuery.prototype.returning` as inherited by `UpdateQuery`. -/
def UpdateQuery.returningSet (q : UpdateQuery) (fields : List String) : UpdateQuery :=
  { q with options := { q.options with returning := some fields } }

/-- `UpdateQuery.prototype.then` (src/lib/query.js lines 234-251): SET
placeholders start at 1, WHERE placeholders continue at
`upd.args.length + 1`, and the request is dispatched unconditionally —
there is no validation of an empty delta or an empty condition list. -/
def UpdateQuery.resolve (q : UpdateQuery) : Resolution :=
  let upd := updates q.delta 1
  let cond := buildWhere q.conditions (upd.args.length + 1) true
  let sql0 := ["UPDATE \"" ++ q.table ++ "\" SET " ++ upd.clause ++ " WHERE " ++ cond.clause]
  .dispatched
    (String.intercalate " " (sql0 ++ returningParts q.options.returning))
    (upd.args ++ cond.args)

/-- Placeholder numbers emitted by `buildWhere`'s inner loop, in emission
order: one per key, counting up from `i` (the `$${i++}` interpolation). -/
def conjunctionNums : Cond → Nat → List Nat
  | [], _ => []
  | _ :: rest, i => i :: conjunctionNums rest (i + 1)

/-- Placeholder numbers emitted by `buildWhere` across all conditions, in
emission order. -/
def disjunctionNums : List Cond → Nat → List Nat
  | [], _ => []
  | cond :: rest, i => conjunctionNums cond i ++ disjunctionNums rest (i + cond.length)

/-- Placeholder numbers emitted by `updates`, in emission order. -/
def updatesNums : List (String × Value) → Nat → List Nat
  | [], _ => []
  | _ :: rest, i => i :: updatesNums rest (i + 1)

/-- Placeholder numbers of a compiled SELECT, in emission order (only the
WHERE clause carries placeholders; LIMIT and OFFSET interpolate their
numbers directly into the text). -/
def SelectQuery.placeholderNums (q : SelectQuery) : List Nat :=
  disjunctionNums q.whereConds 1

/-- Placeholder numbers of a compiled UPDATE, in emission order: the SET
clause starting at 1, then the WHERE clause starting at
`upd.args.length + 1`. -/
def UpdateQuery.placeholderNums (q : UpdateQuery) : List Nat :=
  updatesNums q.delta 1 ++
    disjunctionNums q.conditions ((updates q.delta 1).args.length + 1)

/-- Placeholder numbers of a compiled INSERT, in emission order: `$1..$k`
for the `k` record values, then — for an ON CONFLICT DO UPDATE — the SET
clause starting at `args.length + 1`.  Empty when resolution throws
before dispatch. -/
def InsertQuery.placeholderNums (q : InsertQuery) : List Nat :=
  let base := List.range' 1 q.record.length
  match q.options.onConflict with
  | none => base
  | some spec =>
    match spec.action with
    | some .update =>
      match conflictDeltaOpt q.record spec.excludeFields with
      | none => []
      | some delta => base ++ updatesNums delta (q.record.length + 1)
    | _ => base

/-- `Database.prototype.row` (src/lib/database.js lines 49-53): `null`
(here `none`) when no row matched, otherwise `rows[0]`. -/
def databaseRow (rows : List (List (String × Value))) : Option (List (String × Value)) :=
  if rows.length < 1 then none else rows.head?

/-- Outcome of an async JS computation that can throw a TypeError. -/
inductive JsOutcome (α : Type) where
  | ok (a : α)
  | typeError
deriving DecidableEq, Repr

/-- `Object.values(row)` as invoked by `Database.prototype.scalar`:
throws a TypeError when its argument is `null` (the JS semantics of
`Object.values` on `null`), otherwise lists the values in key order. -/
def objectValues (row : Option (List (String × Value))) : JsOutcome (List Value) :=
  match row with
  | none => .typeError
  | some r => .ok (r.map (fun kv => kv.2))

/-- `Database.prototype.scalar` (src/lib/database.js lines 55-60) applied
to the row set its inner select resolved with: take the first row via
`row`, call `Object.values` on it (throwing on `null`), resolve
`undefined` (`ok none`) if the row has no values, else the first value. -/
def databaseScalar (rows : List (List (String × Value))) : JsOutcome (Option Value) :=
  match objectValues (databaseRow rows) with
  | .typeError => .typeError
  | .ok values => if values.length < 1 then .ok none else .ok values.head?

/-!
Heap embedding of `SelectQuery.prototype.toObject`.  In JS the descriptor
returned by `toObject` holds a fresh copy of the `fields` array and a
fresh copy of each condition object, but `options: this.options` stores a
reference to the very same options object the query keeps mutating.  To
reason about that sharing we give a small store of mutable objects:
string-array cells, condition cells and options cells, addressed by
index.  A query and a descriptor hold cell references; `toObjectH`
allocates the copies and reuses the options reference, exactly as the
source does.
-/

/-- The mutable object store: `fields` arrays, condition objects and
options objects, addressed by list index. -/
structure Heap where
  strArrs : List (List String)
  condObjs : List Cond
  optObjs : List Options
deriving DecidableEq, Repr

/-- A `SelectQuery` whose mutable parts live in the store. -/
structure SelectQueryH where
  table : String
  fieldsRef : Nat
  whereRefs : List Nat
  optionsRef : Nat
deriving DecidableEq, Repr

/-- The descriptor returned by `toObject`, with its mutable parts in the
store. -/
structure QueryObjectH where
  table : String
  fieldsRef : Nat
  whereRefs : List Nat
  optionsRef : Nat
deriving DecidableEq, Repr

/-- `toObject` under the heap embedding (src/lib/query.js lines
109-116): `[...this.fields]` allocates a fresh string-array cell,
`this.where.map((cond) => ({ ...cond }))` allocates a fresh cell per
condition, and `options: this.options` reuses the query's options
reference unchanged. -/
def toObjectH (h : Heap) (q : SelectQueryH) : Heap × QueryObjectH :=
  let fieldsRef := h.strArrs.length
  let h1 := { h with strArrs := h.strArrs ++ [h.strArrs.getD q.fieldsRef []] }
  let whereRefs := List.range' h1.condObjs.length q.whereRefs.length
  let h2 := { h1 with
    condObjs := h1.condObjs ++ q.whereRefs.map (fun r => h1.condObjs.getD r []) }
  (h2, { table := q.table, fieldsRef := fieldsRef, whereRefs := whereRefs,
         optionsRef := q.optionsRef })

/-- `q.limit(count)` under the heap embedding: mutates the options cell
the query references, in place. -/
def limitH (h : Heap) (q : SelectQueryH) (count : Int) : Heap :=
  let cell := h.optObjs.getD q.optionsRef {}
  { h with optObjs := h.optObjs.set q.optionsRef { cell with limit := some count } }

/-- `q.order(field)` under the heap embedding: mutates the options cell
in place, deleting `desc` and setting `order`. -/
def orderH (h : Heap) (q : SelectQueryH) (field : List String) : Heap :=
  let cell := h.optObjs.getD q.optionsRef {}
  { h with optObjs :=
      h.optObjs.set q.optionsRef { cell with descending := none, order := some field } }

/-- `q.desc(field)` under the heap embedding: mutates the options cell
in place, deleting `order` and setting `desc`. -/
def descH (h : Heap) (q : SelectQueryH) (field : List String) : Heap :=
  let cell := h.optObjs.getD q.optionsRef {}
  { h with optObjs :=
      h.optObjs.set q.optionsRef { cell with order := none, descending := some field } }

/-- `q.offset(count)` under the heap embedding: mutates the options cell
the query references, in place. -/
def offsetH (h : Heap) (q : SelectQueryH) (count : Int) : Heap :=
  let cell := h.optObjs.getD q.optionsRef {}
  { h with optObjs := h.optObjs.set q.optionsRef { cell with offset := some count } }

/-- In-place mutation of a fields array cell (e.g. `q.fields.push(...)`
or an element assignment). -/
def setFieldsCell (h : Heap) (r : Nat) (fields : List String) : Heap :=
  { h with strArrs := h.strArrs.set r fields }

/-- In-place mutation of a condition object cell. -/
def setCondCell (h : Heap) (r : Nat) (cond : Cond) : Heap :=
  { h with condObjs := h.condObjs.set r cond }

/-- Reading a descriptor out of the store: dereference its fields array,
its condition objects and its options object. -/
def QueryObjectH.view (d : QueryObjectH) (h : Heap) : QueryObject :=
  { table := d.table
    fields := h.strArrs.getD d.fieldsRef []
    whereConds := d.whereRefs.map (fun r => h.condObjs.getD r [])
    options := h.optObjs.getD d.optionsRef {} }

/-- The per-condition predicate lists built by `buildWhere`'s inner loop
(the `conjunction` arrays, before they are joined with `" AND "`). -/
def conjunctionLists : List Cond → Nat → Bool → List (List String)
  | [], _, _ => []
  | cond :: rest, i, q => (buildConjunction cond i q).1 :: conjunctionLists rest (i + cond.length) q

/-- Whether a resolution dispatched a request (rather than throwing
before any request was made). -/
def Resolution.isDispatched : Resolution → Bool
  | .dispatched _ _ => true
  | .threw _ => false

/-- A concrete one-query store used to exercise the heap embedding: one
fields array `["a"]`, one condition object `{x: 1}`, one empty options
object. -/
def heapExample : Heap :=
  { strArrs := [["a"]], condObjs := [[("x", Value.num 1)]], optObjs := [{}] }

/-- The query living in `heapExample`. -/
def queryHExample : SelectQueryH :=
  { table := "t", fieldsRef := 0, whereRefs := [0], optionsRef := 0 }

/-- The options object of `queryHExample` as stored in `heapExample`. -/
def optCellExample : Options :=
  heapExample.optObjs.getD queryHExample.optionsRef {}

example : whereValue (.str ">=5") = (">=", .str "5") := by decide
example : whereValue (.str "*abc") = ("LIKE", .str "%abc") := by decide
example : whereValue (.str "plain") = ("=", .str "plain") := by decide
example : whereValue (.num 5) = ("=", .num 5) := by decide
example : buildWhere [[("a", .num 1), ("b", .str "*x")]] 1 true =
    { clause := "\"a\" = $1 AND \"b\" LIKE $2", args := [.num 1, .str "%x"] } := by decide
example : updates [("a", .num 3)] 1 = { clause := "\"a\" = $1", args := [.str "3"] } := by decide

theorem buildConjunction_fst_length (c : Cond) (i : Nat) (q : Bool) :
    (buildConjunction c i q).1.length = c.length := by
  induction c generalizing i with
  | nil => rfl
  | cons kv rest ih => simp [buildConjunction, ih]

theorem buildConjunction_snd (c : Cond) (i : Nat) (q : Bool) :
    (buildConjunction c i q).2 = c.map (fun kv => (whereValue kv.2).2) := by
  induction c generalizing i with
  | nil => rfl
  | cons kv rest ih => simp [buildConjunction, ih]

theorem conjunctionNums_eq (c : Cond) (i : Nat) :
    conjunctionNums c i = List.range' i c.length := by
  induction c generalizing i with
  | nil => rfl
  | cons kv rest ih => simp [conjunctionNums, ih, List.range'_succ]

theorem conjunctionNums_length (c : Cond) (i : Nat) :
    (conjunctionNums c i).length = c.length := by
  rw [conjunctionNums_eq]; simp

theorem buildConjunction_fst (c : Cond) (i : Nat) (q : Bool) :
    (buildConjunction c i q).1 =
      List.zipWith (fun kv n => predicate kv.1 (whereValue kv.2).1 n q) c (conjunctionNums c i) := by
  induction c generalizing i with
  | nil => rfl
  | cons kv rest ih => simp [buildConjunction, conjunctionNums, ih]

theorem buildDisjunction_fst_length (conds : List Cond) (i : Nat) (q : Bool) :
    (buildDisjunction conds i q).1.length = conds.length := by
  induction conds generalizing i with
  | nil => rfl
  | cons c rest ih => simp [buildDisjunction, ih]

theorem buildDisjunction_snd (conds : List Cond) (i : Nat) (q : Bool) :
    (buildDisjunction conds i q).2 =
      conds.flatMap (fun c => c.map (fun kv => (whereValue kv.2).2)) := by
  induction conds generalizing i with
  | nil => rfl
  | cons c rest ih => simp [buildDisjunction, ih, buildConjunction_snd]

theorem buildDisjunction_args_length (conds : List Cond) (i : Nat) (q : Bool) :
    (buildDisjunction conds i q).2.length = (conds.map List.length).sum := by
  induction conds generalizing i with
  | nil => rfl
  | cons c rest ih =>
    simp [buildDisjunction, buildConjunction_snd, ih]

theorem disjunctionNums_eq (conds : List Cond) (i : Nat) :
    disjunctionNums conds i = List.range' i ((conds.map List.length).sum) := by
  induction conds generalizing i with
  | nil => rfl
  | cons c rest ih =>
    have happ := List.range'_append i c.length ((rest.map List.length).sum) 1
    simp only [Nat.one_mul] at happ
    rw [Nat.add_comm ((rest.map List.length).sum) c.length] at happ
    simp only [disjunctionNums, ih, conjunctionNums_eq, List.map_cons, List.sum_cons]
    exact happ

theorem buildDisjunction_fst_eq (conds : List Cond) (i : Nat) (q : Bool) :
    (buildDisjunction conds i q).1 =
      (conjunctionLists conds i q).map (String.intercalate " AND ") := by
  induction conds generalizing i with
  | nil => rfl
  | cons c rest ih => simp [buildDisjunction, conjunctionLists, ih]

theorem conjunctionLists_map_length (conds : List Cond) (i : Nat) (q : Bool) :
    (conjunctionLists conds i q).map List.length = conds.map List.length := by
  induction conds generalizing i with
  | nil => rfl
  | cons c rest ih => simp [conjunctionLists, ih, buildConjunction_fst_length]

theorem conjunctionLists_flatten (conds : List Cond) (i : Nat) (q : Bool) :
    (conjunctionLists conds i q).flatten =
      List.zipWith (fun kv n => predicate kv.1 (whereValue kv.2).1 n q)
        conds.flatten (disjunctionNums conds i) := by
  induction conds generalizing i with
  | nil => rfl
  | cons c rest ih =>
    simp only [conjunctionLists, disjunctionNums, List.flatten_cons]
    rw [List.zipWith_append _ _ _ _ _ (by rw [conjunctionNums_length]), ih,
      buildConjunction_fst]

theorem updatesNums_eq (d : List (String × Value)) (i : Nat) :
    updatesNums d i = List.range' i d.length := by
  induction d generalizing i with
  | nil => rfl
  | cons kv rest ih => simp [updatesNums, ih, List.range'_succ]

theorem updatesClauses_snd (d : List (String × Value)) (i : Nat) :
    (updatesClauses d i).2 = d.map (fun kv => Value.str kv.2.jsToString) := by
  induction d generalizing i with
  | nil => rfl
  | cons kv rest ih => simp [updatesClauses, ih]

theorem updatesClauses_fst (d : List (String × Value)) (i : Nat) :
    (updatesClauses d i).1 =
      List.zipWith (fun kv n => "\"" ++ kv.1 ++ "\" = $" ++ toString n) d (updatesNums d i) := by
  induction d generalizing i with
  | nil => rfl
  | cons kv rest ih => simp [updatesClauses, updatesNums, ih]

theorem updates_args_length (d : List (String × Value)) (i : Nat) :
    (updates d i).args.length = d.length := by
  simp [updates, updatesClauses_snd]

theorem jsStartsWith_iff {s p : String} : jsStartsWith s p = true ↔ p.data <+: s.data := by
  rw [jsStartsWith]
  exact List.isPrefixOf_iff_prefix

theorem jsStartsWith_head {s p : String} {c : Char} {t : List Char}
    (h : jsStartsWith s p = true) (hp : p.data = c :: t) :
    ∃ u, s.data = c :: u := by
  rw [jsStartsWith_iff, hp] at h
  obtain ⟨u, hu⟩ := h
  exact ⟨t ++ u, by rw [← hu]; simp⟩

theorem jsStartsWith_false_of_head_ne {s p : String} {c c2 : Char} {t u : List Char}
    (hs : s.data = c :: u) (hp : p.data = c2 :: t) (hne : c2 ≠ c) :
    jsStartsWith s p = false := by
  cases hb : jsStartsWith s p
  · rfl
  · obtain ⟨u2, hu2⟩ := jsStartsWith_head hb hp
    rw [hs] at hu2
    injection hu2 with h1 h2
    exact absurd h1.symm hne

theorem jsStartsWith_data {s p : String} (h : jsStartsWith s p = true) :
    ∃ u, s.data = p.data ++ u := by
  rw [jsStartsWith_iff] at h
  obtain ⟨u, hu⟩ := h
  exact ⟨u, hu.symm⟩

theorem jsStartsWith_false_of_second_ne {s p : String} {c c2 c3 : Char} {t u : List Char}
    (hs : s.data = c :: c2 :: u) (hp : p.data = c :: c3 :: t) (hne : c3 ≠ c2) :
    jsStartsWith s p = false := by
  cases hb : jsStartsWith s p
  · rfl
  · obtain ⟨w, hw⟩ := jsStartsWith_data hb
    rw [hp, hs] at hw
    injection hw with ha hb2
    injection hb2 with hb3 hb4
    exact absurd hb3.symm hne

theorem buildWhere_args_eq (conds : List Cond) (i : Nat) (q : Bool) :
    (buildWhere conds i q).args = (buildDisjunction conds i q).2 := rfl

theorem buildWhere_args_length (conds : List Cond) (i : Nat) (q : Bool) :
    (buildWhere conds i q).args.length = (conds.map List.length).sum := by
  rw [buildWhere_args_eq, buildDisjunction_args_length]

theorem selectParts_snd (q : SelectQuery) :
    (selectParts q).2 = (buildWhere q.whereConds 1 true).args := by
  cases h : q.whereConds with
  | nil => simp [selectParts, h, buildWhere, buildDisjunction]
  | cons c rest => simp [selectParts, h]

/-- Claim C1 counterexample: an `UpdateQuery` resolved with an empty
Delta (no keys) — and likewise one with zero Conditions — is not
rejected: in both cases a request is dispatched to the executor, with an
empty SET respectively empty WHERE fragment in the SQL text. -/
theorem update_empty_dispatch_counterexample :
    UpdateQuery.resolve
        { table := "t", delta := [], conditions := [[("a", .num 1)]], options := {} } =
      .dispatched "UPDATE \"t\" SET  WHERE \"a\" = $1" [.num 1] ∧
    UpdateQuery.resolve
        { table := "t", delta := [("a", .num 1)], conditions := [], options := {} } =
      .dispatched "UPDATE \"t\" SET \"a\" = $1 WHERE " [.str "1"] := by
  exact ⟨by decide, by decide⟩

/-- Claim C1 (amended): resolving an `UpdateQuery` with an empty Delta or
with zero Conditions is not rejected; `UpdateQuery.then` performs no
local validation and always dispatches the compiled statement (with an
empty SET or WHERE fragment) to the executor. -/
theorem update_empty_still_dispatched (q : UpdateQuery)
    (_h : q.delta = [] ∨ q.conditions = []) :
    q.resolve.isDispatched = true := rfl

theorem update_empty_still_dispatched_witness :
    (UpdateQuery.resolve
        { table := "t", delta := [], conditions := [[("a", .num 1)]],
          options := {} }).isDispatched = true :=
  update_empty_still_dispatched
    { table := "t", delta := [], conditions := [[("a", .num 1)]], options := {} }
    (Or.inl rfl)

/-- Claim C2 (code bug): for record `{a:1, b:2, c:3}` with
`onConflict(["a"]).doUpdate(["b"])`, the compiled SET clause covers only
`c` — not `a` and `c` as specified — because the reduce building the
conflict delta returns `undefined` on an excluded key, so every field
accumulated before `b` is lost.  The placeholder of the (single) SET
assignment does start at `$4` and its argument is appended after the
INSERT values, as claimed. -/
theorem insert_conflict_update_drops_prefix :
    conflictDeltaOpt [("a", Value.num 1), ("b", Value.num 2), ("c", Value.num 3)] ["b"] =
      some [("c", Value.num 3)] ∧
    InsertQuery.onConflictDoUpdate
        { table := "t", record := [("a", .num 1), ("b", .num 2), ("c", .num 3)],
          options := {} } ["a"] ["b"] =
      Sum.inr
        { table := "t", record := [("a", .num 1), ("b", .num 2), ("c", .num 3)],
          options := { onConflict := some ⟨["a"], some .update, ["b"]⟩ } } ∧
    InsertQuery.resolve
        { table := "t", record := [("a", .num 1), ("b", .num 2), ("c", .num 3)],
          options := { onConflict := some ⟨["a"], some .update, ["b"]⟩ } } =
      .dispatched
        ("INSERT INTO \"t\" (\"a\", \"b\", \"c\") VALUES ($1, $2, $3)" ++
          " ON CONFLICT (\"a\") DO UPDATE SET \"c\" = $4")
        [.num 1, .num 2, .num 3, .str "3"] := by
  exact ⟨by decide, by decide, by decide⟩

/-- Claim C5: `buildWhere` produces one OR-segment per Condition, each
segment the AND-join of one predicate per key of that Condition, and the
argument list is the inferred literals in traversal order (conditions in
sequence order, keys in iteration order) — `N × M` arguments for `N`
conditions of `M` keys each; an empty condition sequence yields an empty
clause and empty arguments. -/
theorem buildWhere_disjunction_structure :
    (∀ (conds : List Cond) (i : Nat) (q : Bool),
        (buildDisjunction conds i q).1.length = conds.length) ∧
    (∀ (conds : List Cond) (i : Nat) (q : Bool),
        (buildWhere conds i q).clause =
          String.intercalate " OR "
            ((conjunctionLists conds i q).map (String.intercalate " AND "))) ∧
    (∀ (conds : List Cond) (i : Nat) (q : Bool),
        (conjunctionLists conds i q).map List.length = conds.map List.length) ∧
    (∀ (conds : List Cond) (i : Nat) (q : Bool),
        (buildWhere conds i q).args =
          conds.flatMap (fun c => c.map (fun kv => (whereValue kv.2).2))) ∧
    (∀ (conds : List Cond) (i : Nat) (q : Bool) (M : Nat),
        (∀ c ∈ conds, c.length = M) →
        (buildWhere conds i q).args.length = conds.length * M) ∧
    (∀ (i : Nat) (q : Bool), buildWhere [] i q = { clause := "", args := [] }) := by
  refine ⟨buildDisjunction_fst_length, ?_, conjunctionLists_map_length, ?_, ?_, ?_⟩
  · intro conds i q
    rw [buildWhere, ← buildDisjunction_fst_eq]
  · intro conds i q
    rw [buildWhere_args_eq, buildDisjunction_snd]
  · intro conds i q M hM
    rw [buildWhere_args_length]
    induction conds with
    | nil => simp
    | cons c rest ih =>
      simp only [List.map_cons, List.sum_cons, List.length_cons]
      rw [hM c (by simp), ih (fun c2 hc => hM c2 (by simp [hc]))]
      ring
  · intro i q
    rfl

theorem buildWhere_disjunction_structure_witness :
    (buildWhere [[("a", Value.num 1), ("b", Value.num 2)],
                 [("c", Value.num 3), ("d", Value.num 4)]] 1 true).args.length = 2 * 2 ∧
    (1 : Nat) ≤ 2 :=
  ⟨buildWhere_disjunction_structure.2.2.2.2.1
      [[("a", Value.num 1), ("b", Value.num 2)], [("c", Value.num 3), ("d", Value.num 4)]]
      1 true 2 (by decide),
    by decide⟩

/-- Claim C6: reconstructing a `SelectQuery` from its `toObject`
descriptor compiles to exactly the same SQL text and argument list as the
original query. -/
theorem select_toObject_fromObject_roundtrip (q : SelectQuery) :
    (SelectQuery.fromObject q.toObject).request = q.request := rfl

/-- Claim C8 (code bug): `returning(fields)` does replace (never
accumulate) the configured list, but `returning([])` does not clear the
clause: the stored empty array is truthy, so the compiled INSERT still
contains a bare `RETURNING ` with no fields (the part_000 revision, which
keeps `returningClause` as a string, does clear it). -/
theorem returning_empty_list_emits_bare_returning :
    (InsertQuery.returningSet
        (InsertQuery.returningSet
          { table := "t", record := [("a", Value.num 1)], options := {} } ["a"])
        ["b"]).options.returning = some ["b"] ∧
    InsertQuery.resolve
        (InsertQuery.returningSet
          { table := "t", record := [("a", Value.num 1)], options := {} } []) =
      .dispatched "INSERT INTO \"t\" (\"a\") VALUES ($1) RETURNING " [.num 1] := by
  exact ⟨by decide, by decide⟩

/-- Claim C9: `limit(0)` and `offset(0)` compile exactly as if the option
had never been set — the compiled SQL contains no LIMIT / OFFSET clause —
because `SelectQuery.then` tests the numeric option values for
truthiness. -/
theorem limit_offset_zero_omitted :
    (∀ q : SelectQuery,
        (q.limitSet 0).request =
          SelectQuery.request { q with options := { q.options with limit := none } }) ∧
    (∀ q : SelectQuery,
        (q.offsetSet 0).request =
          SelectQuery.request { q with options := { q.options with offset := none } }) ∧
    ((SelectQuery.limitSet
        { table := "t", fields := ["*"], whereConds := [], options := {} } 0).offsetSet 0).request =
      ("SELECT * FROM \"t\"", []) := by
  refine ⟨?_, ?_, by decide⟩
  · intro q
    simp [SelectQuery.request, selectParts, SelectQuery.limitSet]
  · intro q
    simp [SelectQuery.request, selectParts, SelectQuery.offsetSet]

/-- Claim C10: when no row matches, `Database.row` resolves `null` and
`Database.scalar` throws a TypeError (from `Object.values(null)`) rather
than resolving `undefined`; `scalar` resolves successfully exactly when
at least one row matches. -/
theorem scalar_no_rows_throws :
    databaseRow [] = none ∧
    databaseScalar [] = .typeError ∧
    (∀ (rows : List (List (String × Value))) (v : Option Value),
        databaseScalar rows = .ok v → rows ≠ []) ∧
    (∀ rows : List (List (String × Value)),
        rows ≠ [] → databaseScalar rows ≠ .typeError) := by
  refine ⟨rfl, rfl, ?_, ?_⟩
  · intro rows v h hnil
    subst hnil
    simp [databaseScalar, databaseRow, objectValues] at h
  · intro rows hne
    cases rows with
    | nil => exact absurd rfl hne
    | cons r rest =>
      have h1 : databaseRow (r :: rest) = some r := by simp [databaseRow]
      simp only [databaseScalar, h1, objectValues]
      split
      · exact fun hh => JsOutcome.noConfusion hh
      · exact fun hh => JsOutcome.noConfusion hh

theorem scalar_no_rows_throws_witness :
    databaseScalar [[("x", Value.num 7)]] ≠ .typeError :=
  scalar_no_rows_throws.2.2.2 [[("x", Value.num 7)]] (by decide)

/-- Claim C3: for every compiled SELECT, UPDATE, and INSERT (including
ON CONFLICT DO UPDATE), the placeholder numbers emitted into the SQL
text, in emission order, are exactly `1, 2, …, args.length` — 1-based,
strictly increasing and contiguous across the whole statement, the
UPDATE's WHERE numbering continuing right after its SET numbering, with
the `n`-th placeholder emitted together with the `n`-th argument.  The
last two conjuncts tie the tracked numbers to the clause text: the
WHERE predicates and SET assignments are exactly the fragments
interpolating those numbers. -/
theorem compiled_placeholders_contiguous :
    (∀ q : SelectQuery, q.placeholderNums = List.range' 1 q.request.2.length) ∧
    (∀ q : UpdateQuery, q.placeholderNums = List.range' 1 q.resolve.args.length) ∧
    (∀ q : InsertQuery, q.placeholderNums = List.range' 1 q.resolve.args.length) ∧
    (∀ (conds : List Cond) (i : Nat) (q : Bool),
        (conjunctionLists conds i q).flatten =
          List.zipWith (fun kv n => predicate kv.1 (whereValue kv.2).1 n q)
            conds.flatten (disjunctionNums conds i)) ∧
    (∀ (d : List (String × Value)) (i : Nat),
        (updatesClauses d i).1 =
          List.zipWith (fun kv n => "\"" ++ kv.1 ++ "\" = $" ++ toString n)
            d (updatesNums d i)) := by
  refine ⟨?_, ?_, ?_, conjunctionLists_flatten, updatesClauses_fst⟩
  · intro q
    rw [SelectQuery.placeholderNums, disjunctionNums_eq]
    have h2 : q.request.2 = (buildWhere q.whereConds 1 true).args := selectParts_snd q
    rw [h2, buildWhere_args_length]
  · intro q
    rw [UpdateQuery.placeholderNums, updatesNums_eq, disjunctionNums_eq]
    have hr : q.resolve.args =
        (updates q.delta 1).args ++
          (buildWhere q.conditions ((updates q.delta 1).args.length + 1) true).args := rfl
    rw [hr, List.length_append, buildWhere_args_length, updates_args_length]
    have happ := List.range'_append 1 q.delta.length ((q.conditions.map List.length).sum) 1
    simp only [Nat.one_mul] at happ
    rw [Nat.add_comm 1 q.delta.length] at happ
    rw [Nat.add_comm ((q.conditions.map List.length).sum) q.delta.length] at happ
    exact happ
  · intro q
    cases hc : q.options.onConflict with
    | none =>
      simp [InsertQuery.placeholderNums, InsertQuery.resolve, hc, Resolution.args]
    | some spec =>
      cases ha : spec.action with
      | none =>
        simp [InsertQuery.placeholderNums, InsertQuery.resolve, hc, ha, Resolution.args]
      | some act =>
        cases act with
        | nothing =>
          simp [InsertQuery.placeholderNums, InsertQuery.resolve, hc, ha, Resolution.args]
        | update =>
          cases hd : conflictDeltaOpt q.record spec.excludeFields with
          | none =>
            simp [InsertQuery.placeholderNums, InsertQuery.resolve, hc, ha, hd,
              Resolution.args]
          | some delta =>
            simp only [InsertQuery.placeholderNums, InsertQuery.resolve, hc, ha, hd,
              Resolution.args, List.length_append, List.length_map, updates_args_length,
              updatesNums_eq]
            have happ := List.range'_append 1 q.record.length delta.length 1
            simp only [Nat.one_mul] at happ
            rw [Nat.add_comm 1 q.record.length] at happ
            rw [Nat.add_comm delta.length q.record.length] at happ
            exact happ

/-- Claim C4: operator inference on one condition value — a string
starting with one of `>=`, `<=`, `<>`, `>`, `<` (in that order, so the
two-character tokens win over their one-character prefixes) yields that
operator and the remainder; otherwise a string holding `*` or `?` yields
LIKE with `*` ↦ `%` and `?` ↦ `_`; every other value (including every
non-string) yields `=` unchanged.  The last four conjuncts are the
spec's concrete examples. -/
theorem whereValue_operator_inference :
    (∀ s : String, jsStartsWith s ">=" = true →
        whereValue (.str s) = (">=", .str (jsDrop s 2))) ∧
    (∀ s : String, jsStartsWith s "<=" = true →
        whereValue (.str s) = ("<=", .str (jsDrop s 2))) ∧
    (∀ s : String, jsStartsWith s "<>" = true →
        whereValue (.str s) = ("<>", .str (jsDrop s 2))) ∧
    (∀ s : String, jsStartsWith s ">" = true → jsStartsWith s ">=" = false →
        whereValue (.str s) = (">", .str (jsDrop s 1))) ∧
    (∀ s : String, jsStartsWith s "<" = true → jsStartsWith s "<=" = false →
        jsStartsWith s "<>" = false →
        whereValue (.str s) = ("<", .str (jsDrop s 1))) ∧
    (∀ s : String, (∀ op ∈ OPERATORS, jsStartsWith s op = false) →
        (jsIncludesChar s '*' || jsIncludesChar s '?') = true →
        whereValue (.str s) =
          ("LIKE", .str (replaceChar (replaceChar s '*' '%') '?' '_'))) ∧
    (∀ s : String, (∀ op ∈ OPERATORS, jsStartsWith s op = false) →
        jsIncludesChar s '*' = false → jsIncludesChar s '?' = false →
        whereValue (.str s) = ("=", .str s)) ∧
    (∀ v : Value, (∀ s : String, v ≠ .str s) → whereValue v = ("=", v)) ∧
    whereValue (.str ">=5") = (">=", .str "5") ∧
    whereValue (.str "*abc") = ("LIKE", .str "%abc") ∧
    whereValue (.str "plain") = ("=", .str "plain") ∧
    whereValue (.num 5) = ("=", .num 5) := by
  refine ⟨?_, ?_, ?_, ?_, ?_, ?_, ?_, ?_, by decide, by decide, by decide, by decide⟩
  · intro s h
    have hf : OPERATORS.find? (fun op => jsStartsWith s op) = some ">=" := by
      rw [OPERATORS]
      exact List.find?_cons_of_pos _ h
    simp [whereValue, hf, (by decide : (">=" : String).length = 2)]
  · intro s h
    obtain ⟨u, hu⟩ := jsStartsWith_data h
    have hu2 : s.data = '<' :: '=' :: u := hu
    have e1 : jsStartsWith s ">=" = false :=
      jsStartsWith_false_of_head_ne hu2 rfl (by decide)
    have hf : OPERATORS.find? (fun op => jsStartsWith s op) = some "<=" := by
      rw [OPERATORS]
      rw [List.find?_cons_of_neg _ (by simp [e1])]
      exact List.find?_cons_of_pos _ h
    simp [whereValue, hf, (by decide : ("<=" : String).length = 2)]
  · intro s h
    obtain ⟨u, hu⟩ := jsStartsWith_data h
    have hu2 : s.data = '<' :: '>' :: u := hu
    have e1 : jsStartsWith s ">=" = false :=
      jsStartsWith_false_of_head_ne hu2 rfl (by decide)
    have e2 : jsStartsWith s "<=" = false :=
      jsStartsWith_false_of_second_ne hu2 rfl (by decide)
    have hf : OPERATORS.find? (fun op => jsStartsWith s op) = some "<>" := by
      rw [OPERATORS]
      rw [List.find?_cons_of_neg _ (by simp [e1]), List.find?_cons_of_neg _ (by simp [e2])]
      exact List.find?_cons_of_pos _ h
    simp [whereValue, hf, (by decide : ("<>" : String).length = 2)]
  · intro s h1 h2
    obtain ⟨u, hu⟩ := jsStartsWith_data h1
    have hu2 : s.data = '>' :: u := hu
    have e2 : jsStartsWith s "<=" = false :=
      jsStartsWith_false_of_head_ne hu2 rfl (by decide)
    have e3 : jsStartsWith s "<>" = false :=
      jsStartsWith_false_of_head_ne hu2 rfl (by decide)
    have hf : OPERATORS.find? (fun op => jsStartsWith s op) = some ">" := by
      rw [OPERATORS]
      rw [List.find?_cons_of_neg _ (by simp [h2]), List.find?_cons_of_neg _ (by simp [e2]),
        List.find?_cons_of_neg _ (by simp [e3])]
      exact List.find?_cons_of_pos _ h1
    simp [whereValue, hf, (by decide : (">" : String).length = 1)]
  · intro s h1 h2 h3
    obtain ⟨u, hu⟩ := jsStartsWith_data h1
    have hu2 : s.data = '<' :: u := hu
    have e1 : jsStartsWith s ">=" = false :=
      jsStartsWith_false_of_head_ne hu2 rfl (by decide)
    have e4 : jsStartsWith s ">" = false :=
      jsStartsWith_false_of_head_ne hu2 rfl (by decide)
    have hf : OPERATORS.find? (fun op => jsStartsWith s op) = some "<" := by
      rw [OPERATORS]
      rw [List.find?_cons_of_neg _ (by simp [e1]), List.find?_cons_of_neg _ (by simp [h2]),
        List.find?_cons_of_neg _ (by simp [h3]), List.find?_cons_of_neg _ (by simp [e4])]
      exact List.find?_cons_of_pos _ h1
    simp [whereValue, hf, (by decide : ("<" : String).length = 1)]
  · intro s hall hwc
    have hf : OPERATORS.find? (fun op => jsStartsWith s op) = none :=
      List.find?_eq_none.mpr (fun op hop => by simp [hall op hop])
    simp [whereValue, hf, hwc]
  · intro s hall h1 h2
    have hf : OPERATORS.find? (fun op => jsStartsWith s op) = none :=
      List.find?_eq_none.mpr (fun op hop => by simp [hall op hop])
    simp [whereValue, hf, h1, h2]
  · intro v hv
    cases v with
    | str s => exact absurd rfl (hv s)
    | num n => rfl
    | bool b => rfl

theorem whereValue_operator_inference_witness :
    whereValue (.str ">=abc") = (">=", .str (jsDrop ">=abc" 2)) ∧
    whereValue (.str "<7") = ("<", .str (jsDrop "<7" 1)) ∧
    whereValue (.str "a?b") =
      ("LIKE", .str (replaceChar (replaceChar "a?b" '*' '%') '?' '_')) ∧
    whereValue (.bool true) = ("=", .bool true) :=
  ⟨whereValue_operator_inference.1 ">=abc" (by decide),
   whereValue_operator_inference.2.2.2.2.1 "<7" (by decide) (by decide) (by decide),
   whereValue_operator_inference.2.2.2.2.2.1 "a?b" (by decide) (by decide),
   whereValue_operator_inference.2.2.2.2.2.2.2.1 (.bool true)
     (fun s hh => Value.noConfusion hh)⟩

theorem getD_set_eq {α : Type} (l : List α) (i : Nat) (a d : α) (hi : i < l.length) :
    (l.set i a).getD i d = a := by
  rw [List.getD_eq_getElem?_getD, List.getElem?_set]
  simp [hi]

theorem getD_set_ne {α : Type} (l : List α) (i j : Nat) (a d : α) (hne : i ≠ j) :
    (l.set i a).getD j d = l.getD j d := by
  rw [List.getD_eq_getElem?_getD, List.getElem?_set_ne hne, ← List.getD_eq_getElem?_getD]

/-- Claim C7 counterexample: the descriptor returned by `toObject` is not
independent of later mutation of the query — a `limit(5)` call on the
query after `d = q.toObject()` changes the descriptor's view, because
`toObject` stores a reference to the query's own options object. -/
theorem toObject_options_alias_counterexample :
    (toObjectH heapExample queryHExample).2.view
        (limitH (toObjectH heapExample queryHExample).1 queryHExample 5) ≠
      (toObjectH heapExample queryHExample).2.view (toObjectH heapExample queryHExample).1 := by
  decide

/-- Claim C7 (amended): after `d = q.toObject()`, the descriptor's
`fields` array and condition objects are fresh copies — a later fluent
call on `q`, a mutation of `q`'s own fields array, or a mutation of any
pre-existing condition object leaves those parts of `d`'s view
unchanged — but `d.options` is the query's own options object, so every
later fluent call on `q` (`order`, `desc`, `limit`, `offset`) mutates
the object `d` holds and is visible through the descriptor. -/
theorem toObject_snapshot_and_options_alias (h : Heap) (q : SelectQueryH)
    (hf : q.fieldsRef < h.strArrs.length)
    (ho : q.optionsRef < h.optObjs.length) :
    (∀ n : Int,
        ((toObjectH h q).2.view (limitH (toObjectH h q).1 q n)).options =
          { h.optObjs.getD q.optionsRef {} with limit := some n }) ∧
    (∀ n : Int,
        ((toObjectH h q).2.view (limitH (toObjectH h q).1 q n)).fields =
          ((toObjectH h q).2.view (toObjectH h q).1).fields ∧
        ((toObjectH h q).2.view (limitH (toObjectH h q).1 q n)).whereConds =
          ((toObjectH h q).2.view (toObjectH h q).1).whereConds) ∧
    (∀ fs : List String,
        ((toObjectH h q).2.view (setFieldsCell (toObjectH h q).1 q.fieldsRef fs)).fields =
          ((toObjectH h q).2.view (toObjectH h q).1).fields) ∧
    (∀ (r : Nat) (c : Cond), r < h.condObjs.length →
        ((toObjectH h q).2.view (setCondCell (toObjectH h q).1 r c)).whereConds =
          ((toObjectH h q).2.view (toObjectH h q).1).whereConds) ∧
    (∀ f : List String,
        ((toObjectH h q).2.view (orderH (toObjectH h q).1 q f)).options =
          { h.optObjs.getD q.optionsRef {} with descending := none, order := some f }) ∧
    (∀ f : List String,
        ((toObjectH h q).2.view (descH (toObjectH h q).1 q f)).options =
          { h.optObjs.getD q.optionsRef {} with order := none, descending := some f }) ∧
    (∀ n : Int,
        ((toObjectH h q).2.view (offsetH (toObjectH h q).1 q n)).options =
          { h.optObjs.getD q.optionsRef {} with offset := some n }) := by
  refine ⟨?_, ?_, ?_, ?_, ?_, ?_, ?_⟩
  · intro n
    simp only [toObjectH, QueryObjectH.view, limitH]
    exact getD_set_eq _ _ _ _ ho
  · intro n
    exact ⟨rfl, rfl⟩
  · intro fs
    simp only [toObjectH, QueryObjectH.view, setFieldsCell]
    have hne : q.fieldsRef ≠ h.strArrs.length := Nat.ne_of_lt hf
    rw [getD_set_ne _ _ _ _ _ hne]
  · intro r c hr
    simp only [toObjectH, QueryObjectH.view, setCondCell]
    apply List.map_congr_left
    intro j hj
    rw [List.mem_range'] at hj
    obtain ⟨i2, hi2, hji⟩ := hj
    have : r ≠ j := by omega
    exact getD_set_ne _ _ _ _ _ this
  · intro f
    simp only [toObjectH, QueryObjectH.view, orderH]
    exact getD_set_eq _ _ _ _ ho
  · intro f
    simp only [toObjectH, QueryObjectH.view, descH]
    exact getD_set_eq _ _ _ _ ho
  · intro n
    simp only [toObjectH, QueryObjectH.view, offsetH]
    exact getD_set_eq _ _ _ _ ho

theorem toObject_snapshot_and_options_alias_witness :
    ((toObjectH heapExample queryHExample).2.view
        (limitH (toObjectH heapExample queryHExample).1 queryHExample 5)).options =
      { optCellExample with limit := some 5 } ∧
    ((toObjectH heapExample queryHExample).2.view
        (setCondCell (toObjectH heapExample queryHExample).1 0
          [("x", Value.num 2)])).whereConds =
      ((toObjectH heapExample queryHExample).2.view
        (toObjectH heapExample queryHExample).1).whereConds ∧
    ((toObjectH heapExample queryHExample).2.view
        (descH (toObjectH heapExample queryHExample).1 queryHExample ["b"])).options =
      { optCellExample with order := none, descending := some ["b"] } ∧
    ((toObjectH heapExample queryHExample).2.view
        (offsetH (toObjectH heapExample queryHExample).1 queryHExample 3)).options =
      { optCellExample with offset := some 3 } :=
  ⟨(toObject_snapshot_and_options_alias heapExample queryHExample
      (by decide) (by decide)).1 5,
   (toObject_snapshot_and_options_alias heapExample queryHExample
      (by decide) (by decide)).2.2.2.1 0 [("x", Value.num 2)] (by decide),
   (toObject_snapshot_and_options_alias heapExample queryHExample
      (by decide) (by decide)).2.2.2.2.2.1 ["b"],
   (toObject_snapshot_and_options_alias heapExample queryHExample
      (by decide) (by decide)).2.2.2.2.2.2 3⟩

end MetaSQL
